import Mathlib

/-!
Verification of the name-frequency query engine of the repository
nicolassanchez/Nombres (file `src/nombres_SOLUCION.py`).

The file contains a shallow embedding of the aggregation and query functions
of that module, followed by theorems settling the specification claims about
them.

Conventions of the embedding:

* A Python `Registro` namedtuple (año, nombre, frecuencia, genero) becomes the
  structure `Registro` below.  Since `ñ` is not a valid Lean identifier
  character, `año` is transliterated to `anio` throughout, in field names and
  in function names.
* Python `int` becomes `Int`, Python `str` becomes `String`.
* Python lists become `List`.  A Python `set` of names or years that is only
  used for deduplicated iteration is modelled as a deduplicated list
  (`List.dedup`); a Python `dict` whose every key is assigned exactly once is
  modelled as an association list of key/value pairs.
* The two-line idiom `if filtro is not None: registros =
  filtrar_por_genero(registros, filtro)`, repeated at the top of several
  functions, is modelled by `registros_filtrados`.
* The shared line `años = sorted(set(r.año for r in registros))` of
  EJERCICIO 7 and EJERCICIO 8 is modelled by `anios_de`.
* Python stable `list.sort(key=..., reverse=True)` is modelled by
  `List.mergeSort` with the non-strict descending comparison on the key:
  `mergeSort` is a stable sort, which is exactly the documented behaviour of
  Python sorting, also with `reverse=True`.
* Python `max(xs, key=...)` returns the first element attaining the maximal
  key and raises `ValueError` on an empty sequence; it is modelled by the left
  fold `maxAcc` over the tail, which replaces the accumulator only on a
  strictly larger key, wrapped in `Option` for the empty case.
* The Python default arguments `limite=10` and `filtro=None` are not default
  arguments in the embedding; every caller passes them explicitly.
* The plotting functions call `matplotlib`, an external collaborator; their
  embedding returns the data handed to that collaborator: the argument
  sequences and the title string.
-/

/-- One record of the dataset, `Registro = namedtuple(..)` with fields
año, nombre, frecuencia, genero. -/
structure Registro where
  anio : Int
  nombre : String
  frecuencia : Int
  genero : String
deriving DecidableEq

/-- EJERCICIO 2, `filtrar_por_genero`: keep only the records of the given
gender, in order: the comprehension selecting the r with r.genero==genero. -/
def filtrar_por_genero (registros : List Registro) (genero : String) : List Registro :=
  registros.filter (fun r => r.genero == genero)

/-- The two-line idiom at the top of EJERCICIOS 3, 4 and 7: replace the
record list by its gender-filtered version when a filter is given. -/
def registros_filtrados (registros : List Registro) (filtro : Option String) :
    List Registro :=
  match filtro with
  | some f => filtrar_por_genero registros f
  | none => registros

/-- EJERCICIO 3, `calcular_nombres`: the set of the names of the (optionally
gender-filtered) records, modelled as a deduplicated list. -/
def calcular_nombres (registros : List Registro) (filtro : Option String) :
    List String :=
  ((registros_filtrados registros filtro).map (fun r => r.nombre)).dedup

/-- EJERCICIO 4, `calcular_top_nombres_de_año`: the (nombre, frecuencia)
pairs of the records of the given year, after the optional gender filter,
stably sorted by descending frequency and truncated to the first `limite`. -/
def calcular_top_nombres_de_anio (registros : List Registro) (anio : Int)
    (limite : Nat) (filtro : Option String) : List (String × Int) :=
  let registros := registros_filtrados registros filtro
  let resultado := (registros.filter (fun r => r.anio == anio)).map
    (fun r => (r.nombre, r.frecuencia))
  (resultado.mergeSort (fun x y => y.2 ≤ x.2)).take limite

/-- The list comprehension of line 127 of the source, the (r.nombre,
r.frecuencia) pairs of the records with r.año==año, after the optional gender
filter: the pairs that qualify for `calcular_top_nombres_de_anio` before
sorting and truncation. -/
def seleccion_de_anio (registros : List Registro) (anio : Int)
    (filtro : Option String) : List (String × Int) :=
  let registros := registros_filtrados registros filtro
  (registros.filter (fun r => r.anio == anio)).map (fun r => (r.nombre, r.frecuencia))

/-- Accumulator loop of Python `max(..., key=lambda r: r.frecuencia)`: the
accumulator is replaced only on a strictly larger key, so the first element
attaining the maximum is kept. -/
def maxAcc (m : Registro) : List Registro → Registro
  | [] => m
  | r :: rs => maxAcc (if r.frecuencia > m.frecuencia then r else m) rs

/-- Python `max(registros, key=lambda r: r.frecuencia)`; `none` models the
`ValueError` raised on an empty sequence. -/
def maxFrecuencia : List Registro → Option Registro
  | [] => none
  | r :: rs => some (maxAcc r rs)

/-- The shared line of EJERCICIO 7 and EJERCICIO 8:
sorted(set(r.año for r in registros)). -/
def anios_de (registros : List Registro) : List Int :=
  ((registros.map (fun r => r.anio)).dedup).mergeSort (fun a b => a ≤ b)

/-- EJERCICIO 7, `calcular_nombre_mas_frecuente_por_año`: for each distinct
year of the (optionally gender-filtered) records, in ascending order, the
(año, nombre, frecuencia) triple of the record of maximal frequency of that
year, `max` choosing the first one on ties.  The result is `none` exactly when
some per-year `max` call would raise, which never happens, see `C10`. -/
def calcular_nombre_mas_frecuente_por_anio (registros : List Registro)
    (filtro : Option String) : Option (List (Int × String × Int)) :=
  let registros := registros_filtrados registros filtro
  (anios_de registros).mapM (fun anio =>
    (maxFrecuencia (registros.filter (fun r => r.anio == anio))).map
      (fun m => (anio, m.nombre, m.frecuencia)))

/-- Total description of the per-year selection of EJERCICIO 7: the triple
built from the record chosen by `maxFrecuencia` among the records of the
year, with a dummy value for the never-reached empty case (`C10` shows the
empty case is never reached on the years actually iterated over). -/
def eleccion_del_anio (regs : List Registro) (anio : Int) : Int × String × Int :=
  match maxFrecuencia (regs.filter (fun r => r.anio == anio)) with
  | some m => (anio, m.nombre, m.frecuencia)
  | none => (anio, "", 0)

/-- EJERCICIO 8, `calcular_frecuencia_por_año`: for each distinct year of the
full dataset, in ascending order, the pair of that year and the sum of
r.frecuencia over the records with r.año==año and r.nombre==nombre. -/
def calcular_frecuencia_por_anio (registros : List Registro) (nombre : String) :
    List (Int × Int) :=
  (anios_de registros).map (fun anio =>
    (anio, ((registros.filter (fun r => r.anio == anio && r.nombre == nombre)).map
      (fun r => r.frecuencia)).sum))

/-- EJERCICIO 9, `mostrar_evolucion_por_año`: the data handed to the plotting
collaborator, years and frequencies extracted from
`calcular_frecuencia_por_anio` together with the title built by
"Evolución del nombre \x27{}\x27".format(nombre). -/
def mostrar_evolucion_por_anio (registros : List Registro) (nombre : String) :
    List Int × List Int × String :=
  let anios_frecuencias := calcular_frecuencia_por_anio registros nombre
  let anios := anios_frecuencias.map (fun p => p.1)
  let frecuencias := anios_frecuencias.map (fun p => p.2)
  (anios, frecuencias, "Evolución del nombre \x27" ++ nombre ++ "\x27")

/-- EJERCICIO 10, `calcular_frecuencia_acumulada`: the sum of r.frecuencia
over the records with r.nombre==nombre. -/
def calcular_frecuencia_acumulada (registros : List Registro) (nombre : String) : Int :=
  ((registros.filter (fun r => r.nombre == nombre)).map (fun r => r.frecuencia)).sum

/-- EJERCICIO 11, `calcular_frecuencias_por_nombre`: the dictionary assigning
to every name of `calcular_nombres` its accumulated frequency, modelled as an
association list. -/
def calcular_frecuencias_por_nombre (registros : List Registro) :
    List (String × Int) :=
  (calcular_nombres registros none).map
    (fun nombre => (nombre, calcular_frecuencia_acumulada registros nombre))

/-- The example record list of the specification:
(2002, ANA, 100, Mujer), (2002, ANA, 5, Hombre), (2003, ANA, 50, Mujer). -/
def ejemploANA : List Registro :=
  [⟨2002, "ANA", 100, "Mujer"⟩, ⟨2002, "ANA", 5, "Hombre"⟩, ⟨2003, "ANA", 50, "Mujer"⟩]

/-- The example record list of the specification for the top-names query:
(2002, A, 10, Hombre), (2002, B, 20, Hombre). -/
def ejemploTop : List Registro :=
  [⟨2002, "A", 10, "Hombre"⟩, ⟨2002, "B", 20, "Hombre"⟩]

/-! Helper lemmas shared by the claim theorems. -/

theorem anios_de_nodup (registros : List Registro) : (anios_de registros).Nodup := by
  unfold anios_de
  exact (List.mergeSort_perm _ _).symm.nodup (List.nodup_dedup _)

theorem mem_anios_de (registros : List Registro) (a : Int) :
    a ∈ anios_de registros ↔ a ∈ registros.map (fun r => r.anio) := by
  unfold anios_de
  rw [List.mem_mergeSort, List.mem_dedup]

theorem anios_de_sorted (registros : List Registro) :
    (anios_de registros).Pairwise (fun a b : Int => a ≤ b) := by
  have htrans : ∀ a b c : Int, (decide (a ≤ b)) = true → (decide (b ≤ c)) = true →
      (decide (a ≤ c)) = true := by
    intro a b c hab hbc
    simp only [decide_eq_true_eq] at *
    omega
  have htotal : ∀ a b : Int, ((decide (a ≤ b)) || (decide (b ≤ a))) = true := by
    intro a b
    simp only [Bool.or_eq_true, decide_eq_true_eq]
    omega
  have h := @List.sorted_mergeSort Int (fun a b => decide (a ≤ b)) htrans htotal
    ((registros.map (fun r => r.anio)).dedup)
  unfold anios_de
  exact h.imp (fun hab => by simpa using hab)

theorem anios_de_pairwise_lt (registros : List Registro) :
    (anios_de registros).Pairwise (fun a b : Int => a < b) := by
  have hand := (anios_de_sorted registros).and (anios_de_nodup registros)
  exact hand.imp (fun hab => lt_of_le_of_ne hab.1 hab.2)

theorem sum_frecuencias_fibras {κ : Type} [DecidableEq κ] (key : Registro → κ)
    (ks : List κ) : ∀ l : List Registro, ks.Nodup → (∀ r ∈ l, key r ∈ ks) →
      (ks.map (fun k =>
        ((l.filter (fun r => key r == k)).map (fun r => r.frecuencia)).sum)).sum
        = (l.map (fun r => r.frecuencia)).sum := by
  induction ks with
  | nil =>
    intro l _ hcov
    have hl : l = [] := by
      cases l with
      | nil => rfl
      | cons r rs => exact absurd (hcov r (List.mem_cons_self r rs)) (List.not_mem_nil _)
    subst hl
    simp
  | cons k ks ih =>
    intro l hnd hcov
    have hk : k ∉ ks := (List.nodup_cons.mp hnd).1
    have hnd' : ks.Nodup := (List.nodup_cons.mp hnd).2
    have hperm : (l.filter (fun r => key r == k)
        ++ l.filter (fun r => !(key r == k))).Perm l :=
      List.filter_append_perm _ l
    have hcov₂ : ∀ r ∈ l.filter (fun r => !(key r == k)), key r ∈ ks := by
      intro r hr
      have hmem := List.mem_filter.mp hr
      have hne : ¬ key r = k := by simpa using hmem.2
      rcases List.mem_cons.mp (hcov r hmem.1) with h | h
      · exact absurd h hne
      · exact h
    have hfib : ∀ k' ∈ ks, l.filter (fun r => key r == k')
        = (l.filter (fun r => !(key r == k))).filter (fun r => key r == k') := by
      intro k' hk'
      rw [List.filter_filter]
      apply List.filter_congr
      intro r _
      by_cases h : key r = k'
      · have hne : k' ≠ k := fun he => hk (he ▸ hk')
        simp [h, hne]
      · simp [h]
    have hmap : ks.map (fun k' =>
          ((l.filter (fun r => key r == k')).map (fun r => r.frecuencia)).sum)
        = ks.map (fun k' =>
          (((l.filter (fun r => !(key r == k))).filter
            (fun r => key r == k')).map (fun r => r.frecuencia)).sum) :=
      List.map_congr_left (fun k' hk' => by rw [hfib k' hk'])
    have hsum : ((l.filter (fun r => key r == k)).map (fun r => r.frecuencia)).sum
        + ((l.filter (fun r => !(key r == k))).map (fun r => r.frecuencia)).sum
        = (l.map (fun r => r.frecuencia)).sum := by
      have h := (hperm.map (fun r => r.frecuencia)).sum_eq
      simpa [List.map_append] using h
    rw [List.map_cons, List.sum_cons, hmap,
      ih (l.filter (fun r => !(key r == k))) hnd' hcov₂]
    exact hsum

theorem filtro_anio_nombre (registros : List Registro) (nombre : String) (a : Int) :
    (registros.filter (fun r => r.nombre == nombre)).filter (fun r => r.anio == a)
      = registros.filter (fun r => r.anio == a && r.nombre == nombre) := by
  rw [List.filter_filter]

/-! Claim theorems. -/

/-- C7: for every record list and gender string g, `filtrar_por_genero` is a
subsequence of the input preserving the original order, and every record
occurs in the result with exactly its original multiplicity when its gender is
g and not at all otherwise: no record is added, dropped or modified. -/
theorem C7_filtrar_por_genero (registros : List Registro) (g : String) (r : Registro) :
    (filtrar_por_genero registros g).Sublist registros
    ∧ (filtrar_por_genero registros g).count r
        = (if r.genero = g then registros.count r else 0) := by
  constructor
  · exact List.filter_sublist registros
  · by_cases h : r.genero = g
    · rw [if_pos h]
      exact List.count_filter (by simp [h])
    · rw [if_neg h]
      rw [List.count_eq_zero]
      intro hmem
      exact h (by simpa using (List.mem_filter.mp hmem).2)

/-- C4: `calcular_frecuencia_acumulada` equals the sum of the second
components of `calcular_frecuencia_por_anio`, and equals the sum of the
frequencies of all records whose name matches, across all years and
genders. -/
theorem C4_frecuencia_acumulada (registros : List Registro) (nombre : String) :
    calcular_frecuencia_acumulada registros nombre
      = ((calcular_frecuencia_por_anio registros nombre).map (fun p => p.2)).sum
    ∧ calcular_frecuencia_acumulada registros nombre
      = ((registros.filter (fun r => r.nombre == nombre)).map
          (fun r => r.frecuencia)).sum := by
  refine ⟨?_, rfl⟩
  have hcov : ∀ r ∈ registros.filter (fun r => r.nombre == nombre),
      r.anio ∈ anios_de registros := by
    intro r hr
    rw [mem_anios_de]
    exact List.mem_map_of_mem _ (List.mem_filter.mp hr).1
  have hfib := sum_frecuencias_fibras (fun r => r.anio) (anios_de registros)
    (registros.filter (fun r => r.nombre == nombre)) (anios_de_nodup registros) hcov
  show ((registros.filter (fun r => r.nombre == nombre)).map (fun r => r.frecuencia)).sum
      = _
  rw [← hfib]
  simp only [calcular_frecuencia_por_anio, List.map_map]
  apply congrArg List.sum
  apply List.map_congr_left
  intro a _
  simp only [Function.comp]
  rw [← filtro_anio_nombre registros nombre a]

/-- C6: the sum of the values of `calcular_frecuencias_por_nombre` equals the
sum of the frequency field over all records. -/
theorem C6_suma_frecuencias (registros : List Registro) :
    ((calcular_frecuencias_por_nombre registros).map (fun p => p.2)).sum
      = (registros.map (fun r => r.frecuencia)).sum := by
  have hnd : (calcular_nombres registros none).Nodup := List.nodup_dedup _
  have hcov : ∀ r ∈ registros, r.nombre ∈ calcular_nombres registros none := by
    intro r hr
    show r.nombre ∈ ((registros_filtrados registros none).map (fun r => r.nombre)).dedup
    rw [List.mem_dedup]
    exact List.mem_map_of_mem _ hr
  have hfib := sum_frecuencias_fibras (fun r => r.nombre)
    (calcular_nombres registros none) registros hnd hcov
  rw [← hfib]
  simp only [calcular_frecuencias_por_nombre, List.map_map]
  rfl

/-- C2: `calcular_frecuencia_por_anio` returns one pair per distinct year of
the full dataset, in strictly ascending year order, pairing each year with the
total frequency of the records of that year and name regardless of gender
(zero sums included); on the example records it returns
[(2002, 105), (2003, 50)]. -/
theorem C2_frecuencia_por_anio (registros : List Registro) (nombre : String) :
    ((calcular_frecuencia_por_anio registros nombre).map (fun p => p.1)).Pairwise
      (fun a b : Int => a < b)
    ∧ (∀ a : Int, a ∈ (calcular_frecuencia_por_anio registros nombre).map (fun p => p.1)
        ↔ a ∈ registros.map (fun r => r.anio))
    ∧ (∀ p ∈ calcular_frecuencia_por_anio registros nombre,
        p.2 = ((registros.filter (fun r => r.anio == p.1 && r.nombre == nombre)).map
          (fun r => r.frecuencia)).sum)
    ∧ calcular_frecuencia_por_anio ejemploANA "ANA" = [(2002, 105), (2003, 50)] := by
  have hfst : (calcular_frecuencia_por_anio registros nombre).map (fun p => p.1)
      = anios_de registros := by
    simp only [calcular_frecuencia_por_anio, List.map_map]
    exact List.map_id _
  refine ⟨?_, ?_, ?_, ?_⟩
  · rw [hfst]
    exact anios_de_pairwise_lt registros
  · intro a
    rw [hfst]
    exact mem_anios_de registros a
  · intro p hp
    simp only [calcular_frecuencia_por_anio, List.mem_map] at hp
    obtain ⟨a, _, rfl⟩ := hp
    rfl
  · simp [calcular_frecuencia_por_anio, anios_de, ejemploANA, List.mergeSort, List.merge]

/-- Witness for C2: the summed-frequency description holds at the concrete
pair (2002, 105) of the example dataset. -/
theorem C2_witness :
    ((2002 : Int), (105 : Int)).2
      = ((ejemploANA.filter (fun r => r.anio == ((2002 : Int), (105 : Int)).1
          && r.nombre == "ANA")).map (fun r => r.frecuencia)).sum := by
  have h := C2_frecuencia_por_anio ejemploANA "ANA"
  exact h.2.2.1 (2002, 105) (by rw [h.2.2.2]; decide)

/-- C5: `calcular_frecuencias_por_nombre` is exactly the mapping computing
`calcular_frecuencia_acumulada` for every name in `calcular_nombres`; its keys
are distinct and are exactly the names of the records, and every entry maps a
name to its accumulated frequency. -/
theorem C5_frecuencias_por_nombre (registros : List Registro) :
    calcular_frecuencias_por_nombre registros
      = (calcular_nombres registros none).map
          (fun n => (n, calcular_frecuencia_acumulada registros n))
    ∧ ((calcular_frecuencias_por_nombre registros).map (fun p => p.1)).Nodup
    ∧ (∀ n : String, n ∈ (calcular_frecuencias_por_nombre registros).map (fun p => p.1)
        ↔ n ∈ registros.map (fun r => r.nombre))
    ∧ ∀ p ∈ calcular_frecuencias_por_nombre registros,
        p.2 = calcular_frecuencia_acumulada registros p.1 := by
  have hfst : (calcular_frecuencias_por_nombre registros).map (fun p => p.1)
      = calcular_nombres registros none := by
    simp only [calcular_frecuencias_por_nombre, List.map_map]
    exact List.map_id _
  refine ⟨rfl, ?_, ?_, ?_⟩
  · rw [hfst]
    exact List.nodup_dedup _
  · intro n
    rw [hfst]
    show n ∈ ((registros_filtrados registros none).map (fun r => r.nombre)).dedup ↔ _
    rw [List.mem_dedup]
    exact Iff.rfl
  · intro p hp
    simp only [calcular_frecuencias_por_nombre, List.mem_map] at hp
    obtain ⟨n, _, rfl⟩ := hp
    rfl

/-- Witness for C5: the per-entry description holds at the concrete entry
(ANA, 155) of the example dataset. -/
theorem C5_witness :
    ("ANA", (155 : Int)).2
      = calcular_frecuencia_acumulada ejemploANA ("ANA", (155 : Int)).1 :=
  (C5_frecuencias_por_nombre ejemploANA).2.2.2 ("ANA", 155) (by decide)

/-- C8: for a name absent from the dataset the query functions return empty
or zero results instead of failing: the accumulated frequency is zero, every
pair produced by `calcular_frecuencia_por_anio` carries frequency zero, and on
an empty record list the per-year list is empty.  Both functions are total, so
no exceptional outcome exists in the embedding. -/
theorem C8_nombre_ausente (registros : List Registro) (nombre : String)
    (h : nombre ∉ registros.map (fun r => r.nombre)) :
    calcular_frecuencia_acumulada registros nombre = 0
    ∧ (∀ p ∈ calcular_frecuencia_por_anio registros nombre, p.2 = 0)
    ∧ (registros = [] → calcular_frecuencia_por_anio registros nombre = []) := by
  have hnil : registros.filter (fun r => r.nombre == nombre) = [] := by
    rw [List.filter_eq_nil_iff]
    intro r hr
    simp only [beq_iff_eq]
    intro he
    exact h (he ▸ List.mem_map_of_mem _ hr)
  refine ⟨?_, ?_, ?_⟩
  · show ((registros.filter (fun r => r.nombre == nombre)).map (fun r => r.frecuencia)).sum = 0
    rw [hnil]
    rfl
  · intro p hp
    simp only [calcular_frecuencia_por_anio, List.mem_map] at hp
    obtain ⟨a, _, rfl⟩ := hp
    show ((registros.filter (fun r => r.anio == a && r.nombre == nombre)).map
      (fun r => r.frecuencia)).sum = 0
    have hnil' : registros.filter (fun r => r.anio == a && r.nombre == nombre) = [] := by
      rw [List.filter_eq_nil_iff]
      intro r hr hb
      have hn : r.nombre = nombre := by
        have hb2 := (Bool.and_eq_true _ _).mp hb
        exact beq_iff_eq.mp hb2.2
      have : ¬ (fun r : Registro => r.nombre == nombre) r = true := by
        rw [List.filter_eq_nil_iff] at hnil
        exact hnil r hr
      exact this (by simp [hn])
    rw [hnil']
    rfl
  · intro h0
    subst h0
    simp [calcular_frecuencia_por_anio, anios_de]

/-- Witness for C8: the name PEPE is absent from the example dataset and its
accumulated frequency is zero. -/
theorem C8_witness : calcular_frecuencia_acumulada ejemploANA "PEPE" = 0 :=
  (C8_nombre_ausente ejemploANA "PEPE" (by decide)).1

/-- Counterexample for C9 as stated: the title handed to the plotting
collaborator for the name ANA is the Spanish-language string of the source,
not the English string the claim quotes. -/
theorem C9_contraejemplo_titulo :
    (mostrar_evolucion_por_anio ejemploANA "ANA").2.2
      ≠ "Evolution of name \x27ANA\x27" := by
  decide

/-- C9 (amended): `mostrar_evolucion_por_anio` hands the plotting collaborator
exactly the two parallel sequences obtained by projecting
`calcular_frecuencia_por_anio` onto first and second components, zipping back
to the original pair list, together with the title
"Evolución del nombre \x27<name>\x27" built from the queried name (the Spanish
format string of the source, rather than the English title the claim
quotes). -/
theorem C9_series_evolucion (registros : List Registro) (nombre : String) :
    (mostrar_evolucion_por_anio registros nombre).1
        = (calcular_frecuencia_por_anio registros nombre).map (fun p => p.1)
    ∧ (mostrar_evolucion_por_anio registros nombre).2.1
        = (calcular_frecuencia_por_anio registros nombre).map (fun p => p.2)
    ∧ (mostrar_evolucion_por_anio registros nombre).1.length
        = (mostrar_evolucion_por_anio registros nombre).2.1.length
    ∧ ((mostrar_evolucion_por_anio registros nombre).1.zip
        (mostrar_evolucion_por_anio registros nombre).2.1)
        = calcular_frecuencia_por_anio registros nombre
    ∧ (mostrar_evolucion_por_anio registros nombre).2.2
        = "Evolución del nombre \x27" ++ nombre ++ "\x27" := by
  refine ⟨rfl, rfl, ?_, ?_, rfl⟩
  · simp [mostrar_evolucion_por_anio]
  · show ((calcular_frecuencia_por_anio registros nombre).map (fun p => p.1)).zip
        ((calcular_frecuencia_por_anio registros nombre).map (fun p => p.2))
      = calcular_frecuencia_por_anio registros nombre
    rw [List.zip_map']
    simp

/-- C1: `calcular_top_nombres_de_anio` is the truncation to the first
`limite` elements of a list `ordenado` that is a permutation of the
qualifying (name, frequency) pairs `seleccion_de_anio`, is sorted by
non-increasing frequency, and is stable: for every frequency value the pairs
carrying it appear in `ordenado` exactly in their original relative order.
These properties determine `ordenado` uniquely as the stable descending sort.
Moreover the result length is at most `limite`, and when at most `limite`
pairs qualify the result is a permutation of all of them. -/
theorem C1_top_nombres (registros : List Registro) (anio : Int) (limite : Nat)
    (filtro : Option String) :
    ∃ ordenado : List (String × Int),
      calcular_top_nombres_de_anio registros anio limite filtro = ordenado.take limite
      ∧ ordenado.Perm (seleccion_de_anio registros anio filtro)
      ∧ ordenado.Pairwise (fun x y : String × Int => y.2 ≤ x.2)
      ∧ (∀ c : Int, ordenado.filter (fun x => x.2 == c)
          = (seleccion_de_anio registros anio filtro).filter (fun x => x.2 == c))
      ∧ (calcular_top_nombres_de_anio registros anio limite filtro).length ≤ limite
      ∧ ((seleccion_de_anio registros anio filtro).length ≤ limite
          → (calcular_top_nombres_de_anio registros anio limite filtro).Perm
              (seleccion_de_anio registros anio filtro)) := by
  have htrans : ∀ a b c : String × Int, (decide (b.2 ≤ a.2)) = true →
      (decide (c.2 ≤ b.2)) = true → (decide (c.2 ≤ a.2)) = true := by
    intro a b c hab hbc
    simp only [decide_eq_true_eq] at *
    omega
  have htotal : ∀ a b : String × Int,
      ((decide (b.2 ≤ a.2)) || (decide (a.2 ≤ b.2))) = true := by
    intro a b
    simp only [Bool.or_eq_true, decide_eq_true_eq]
    omega
  refine ⟨(seleccion_de_anio registros anio filtro).mergeSort
      (fun x y => y.2 ≤ x.2), rfl, List.mergeSort_perm _ _, ?_, ?_, ?_, ?_⟩
  · exact (@List.sorted_mergeSort (String × Int) (fun x y => decide (y.2 ≤ x.2))
      htrans htotal (seleccion_de_anio registros anio filtro)).imp
      (fun hab => by simpa using hab)
  · intro c
    have hfil : ((seleccion_de_anio registros anio filtro).filter
        (fun x => x.2 == c)).Pairwise (fun x y : String × Int =>
          (decide (y.2 ≤ x.2)) = true) := by
      apply List.pairwise_of_forall_mem_list
      intro a ha b hb
      have ha2 : a.2 = c := by simpa using (List.mem_filter.mp ha).2
      have hb2 : b.2 = c := by simpa using (List.mem_filter.mp hb).2
      simp [ha2, hb2]
    have hsub : ((seleccion_de_anio registros anio filtro).filter
        (fun x => x.2 == c)).Sublist ((seleccion_de_anio registros anio
          filtro).mergeSort (fun x y => y.2 ≤ x.2)) :=
      List.sublist_mergeSort htrans htotal hfil (List.filter_sublist _)
    have hsub2 : ((seleccion_de_anio registros anio filtro).filter
        (fun x => x.2 == c)).Sublist (((seleccion_de_anio registros anio
          filtro).mergeSort (fun x y => y.2 ≤ x.2)).filter (fun x => x.2 == c)) := by
      have h2 := List.Sublist.filter (fun x : String × Int => x.2 == c) hsub
      rwa [List.filter_filter,
        show (fun a : String × Int => ((a.2 == c) && (a.2 == c))) = (fun a => a.2 == c)
          from funext (fun a => Bool.and_self _)] at h2
    have hlen : (((seleccion_de_anio registros anio filtro).mergeSort
        (fun x y => y.2 ≤ x.2)).filter (fun x => x.2 == c)).length
        = ((seleccion_de_anio registros anio filtro).filter
            (fun x => x.2 == c)).length :=
      ((List.mergeSort_perm _ _).filter _).length_eq
    exact (hsub2.eq_of_length hlen.symm).symm
  · exact List.length_take_le limite _
  · intro hlen
    have hlen' : ((seleccion_de_anio registros anio filtro).mergeSort
        (fun x y => y.2 ≤ x.2)).length ≤ limite := by
      rw [(List.mergeSort_perm _ _).length_eq]
      exact hlen
    have heq : calcular_top_nombres_de_anio registros anio limite filtro
        = (seleccion_de_anio registros anio filtro).mergeSort
            (fun x y => y.2 ≤ x.2) := by
      show ((seleccion_de_anio registros anio filtro).mergeSort
        (fun x y => y.2 ≤ x.2)).take limite = _
      exact List.take_of_length_le hlen'
    rw [heq]
    exact List.mergeSort_perm _ _

/-- Witness for C1: on the example dataset with a limit larger than the
number of qualifying pairs, the query returns a permutation of all of
them. -/
theorem C1_witness :
    (calcular_top_nombres_de_anio ejemploTop 2002 3 none).Perm
      (seleccion_de_anio ejemploTop 2002 none) := by
  obtain ⟨o, h⟩ := C1_top_nombres ejemploTop 2002 3 none
  exact h.2.2.2.2.2 (by decide)

/-! Lemmas about the Python max model. -/

theorem maxAcc_ge : ∀ (l : List Registro) (m : Registro), ∀ x ∈ m :: l,
    x.frecuencia ≤ (maxAcc m l).frecuencia := by
  intro l
  induction l with
  | nil =>
    intro m x hx
    rcases List.mem_cons.mp hx with rfl | hx'
    · exact le_refl _
    · exact absurd hx' (List.not_mem_nil _)
  | cons r rs ih =>
    intro m x hx
    show x.frecuencia ≤ (maxAcc (if r.frecuencia > m.frecuencia then r else m) rs).frecuencia
    have hm : m.frecuencia ≤ (if r.frecuencia > m.frecuencia then r else m).frecuencia := by
      by_cases h : r.frecuencia > m.frecuencia
      · rw [if_pos h]; omega
      · rw [if_neg h]
    have hr : r.frecuencia ≤ (if r.frecuencia > m.frecuencia then r else m).frecuencia := by
      by_cases h : r.frecuencia > m.frecuencia
      · rw [if_pos h]
      · rw [if_neg h]; omega
    have hhead := ih (if r.frecuencia > m.frecuencia then r else m) _
      (List.mem_cons_self _ _)
    rcases List.mem_cons.mp hx with rfl | hx'
    · exact le_trans hm hhead
    · rcases List.mem_cons.mp hx' with rfl | hx''
      · exact le_trans hr hhead
      · exact ih _ x (List.mem_cons_of_mem _ hx'')

theorem maxAcc_decomp : ∀ (l : List Registro) (m : Registro),
    ∃ l₁ l₂ : List Registro, m :: l = l₁ ++ (maxAcc m l) :: l₂
      ∧ (∀ x ∈ l₁, x.frecuencia < (maxAcc m l).frecuencia)
      ∧ (∀ x ∈ l₂, x.frecuencia ≤ (maxAcc m l).frecuencia) := by
  intro l
  induction l with
  | nil =>
    intro m
    exact ⟨[], [], rfl, by simp, by simp⟩
  | cons r rs ih =>
    intro m
    by_cases hrm : r.frecuencia > m.frecuencia
    · obtain ⟨l₁, l₂, heq, h₁, h₂⟩ := ih r
      have hred : maxAcc m (r :: rs) = maxAcc r rs := by
        show maxAcc (if r.frecuencia > m.frecuencia then r else m) rs = maxAcc r rs
        rw [if_pos hrm]
      rw [hred]
      refine ⟨m :: l₁, l₂, ?_, ?_, h₂⟩
      · rw [List.cons_append, ← heq]
      · intro x hx
        rcases List.mem_cons.mp hx with rfl | hx'
        · have hr : r.frecuencia ≤ (maxAcc r rs).frecuencia :=
            maxAcc_ge rs r r (List.mem_cons_self _ _)
          omega
        · exact h₁ x hx'
    · obtain ⟨l₁, l₂, heq, h₁, h₂⟩ := ih m
      have hred : maxAcc m (r :: rs) = maxAcc m rs := by
        show maxAcc (if r.frecuencia > m.frecuencia then r else m) rs = maxAcc m rs
        rw [if_neg hrm]
      rw [hred]
      cases l₁ with
      | nil =>
        simp only [List.nil_append] at heq
        injection heq with hm hrs
        refine ⟨[], r :: l₂, ?_, by simp, ?_⟩
        · simp only [List.nil_append]
          rw [← hm, ← hrs]
        · intro x hx
          rcases List.mem_cons.mp hx with rfl | hx'
          · rw [← hm]; omega
          · exact h₂ x hx'
      | cons a l₁' =>
        simp only [List.cons_append] at heq
        injection heq with hm hrs
        refine ⟨m :: r :: l₁', l₂, ?_, ?_, h₂⟩
        · rw [List.cons_append, List.cons_append, ← hrs]
        · intro x hx
          have hmlt : m.frecuencia < (maxAcc m rs).frecuencia := by
            have := h₁ a (List.mem_cons_self _ _)
            rw [← hm] at this
            exact this
          rcases List.mem_cons.mp hx with rfl | hx'
          · exact hmlt
          · rcases List.mem_cons.mp hx' with rfl | hx''
            · omega
            · exact h₁ x (List.mem_cons_of_mem _ hx'')

theorem maxFrecuencia_decomp (r : Registro) (rs : List Registro) :
    ∃ (m : Registro) (l₁ l₂ : List Registro), maxFrecuencia (r :: rs) = some m
      ∧ r :: rs = l₁ ++ m :: l₂
      ∧ (∀ x ∈ l₁, x.frecuencia < m.frecuencia)
      ∧ (∀ x ∈ l₂, x.frecuencia ≤ m.frecuencia) := by
  obtain ⟨l₁, l₂, heq, h₁, h₂⟩ := maxAcc_decomp rs r
  exact ⟨maxAcc r rs, l₁, l₂, rfl, heq, h₁, h₂⟩

theorem mapM_eq_some_map {α β : Type} (f : α → Option β) (g : α → β) :
    ∀ l : List α, (∀ a ∈ l, f a = some (g a)) → l.mapM f = some (l.map g) := by
  intro l
  induction l with
  | nil =>
    intro
    rfl
  | cons a l ih =>
    intro h
    rw [List.mapM_cons, h a (List.mem_cons_self _ _),
      ih (fun b hb => h b (List.mem_cons_of_mem _ hb))]
    rfl

theorem nombre_mas_frecuente_eq (registros : List Registro) (filtro : Option String) :
    calcular_nombre_mas_frecuente_por_anio registros filtro
      = some ((anios_de (registros_filtrados registros filtro)).map
          (eleccion_del_anio (registros_filtrados registros filtro))) := by
  show (anios_de (registros_filtrados registros filtro)).mapM _ = _
  apply mapM_eq_some_map
  intro a ha
  obtain ⟨r, hr, hra⟩ := List.mem_map.mp ((mem_anios_de _ a).mp ha)
  have hfil : r ∈ (registros_filtrados registros filtro).filter
      (fun r => r.anio == a) := List.mem_filter.mpr ⟨hr, by simp [hra]⟩
  unfold eleccion_del_anio
  cases hcase : (registros_filtrados registros filtro).filter (fun r => r.anio == a) with
  | nil =>
    rw [hcase] at hfil
    exact absurd hfil (List.not_mem_nil _)
  | cons x xs =>
    rfl

/-- C3: `calcular_nombre_mas_frecuente_por_anio` succeeds with a list holding
exactly one triple per distinct year of the (possibly gender-filtered)
records, in strictly ascending year order; each triple carries the name and
frequency of a record of that year that is of maximal frequency and is the
first such record encountered: every earlier record of the year has strictly
smaller frequency and every later one has frequency at most the maximum. -/
theorem C3_mas_frecuente_por_anio (registros : List Registro) (filtro : Option String) :
    ∃ l : List (Int × String × Int),
      calcular_nombre_mas_frecuente_por_anio registros filtro = some l
      ∧ (l.map (fun t => t.1)).Pairwise (fun a b : Int => a < b)
      ∧ (∀ a : Int, a ∈ l.map (fun t => t.1)
          ↔ a ∈ (registros_filtrados registros filtro).map (fun r => r.anio))
      ∧ ∀ t ∈ l, ∃ (m : Registro) (l₁ l₂ : List Registro),
          (registros_filtrados registros filtro).filter (fun r => r.anio == t.1)
            = l₁ ++ m :: l₂
          ∧ t.2.1 = m.nombre ∧ t.2.2 = m.frecuencia
          ∧ (∀ x ∈ l₁, x.frecuencia < m.frecuencia)
          ∧ (∀ x ∈ l₂, x.frecuencia ≤ m.frecuencia) := by
  refine ⟨(anios_de (registros_filtrados registros filtro)).map
      (eleccion_del_anio (registros_filtrados registros filtro)),
    nombre_mas_frecuente_eq registros filtro, ?_, ?_, ?_⟩
  all_goals
    have hfst : ((anios_de (registros_filtrados registros filtro)).map
          (eleccion_del_anio (registros_filtrados registros filtro))).map
        (fun t => t.1) = anios_de (registros_filtrados registros filtro) := by
      rw [List.map_map]
      have hcomp : ((fun t : Int × String × Int => t.1)
          ∘ eleccion_del_anio (registros_filtrados registros filtro)) = id := by
        funext a
        simp only [Function.comp, id]
        unfold eleccion_del_anio
        cases maxFrecuencia ((registros_filtrados registros filtro).filter
          (fun r => r.anio == a)) with
        | none => rfl
        | some m => rfl
      rw [hcomp, List.map_id]
  · rw [hfst]
    exact anios_de_pairwise_lt _
  · intro a
    rw [hfst]
    exact mem_anios_de _ a
  · intro t ht
    obtain ⟨a, ha, rfl⟩ := List.mem_map.mp ht
    obtain ⟨r, hr, hra⟩ := List.mem_map.mp ((mem_anios_de _ a).mp ha)
    have hfil : r ∈ (registros_filtrados registros filtro).filter
        (fun r => r.anio == a) := List.mem_filter.mpr ⟨hr, by simp [hra]⟩
    cases hcase : (registros_filtrados registros filtro).filter
        (fun r => r.anio == a) with
    | nil =>
      rw [hcase] at hfil
      exact absurd hfil (List.not_mem_nil _)
    | cons x xs =>
      obtain ⟨m, l₁, l₂, hsome, heq, h₁, h₂⟩ := maxFrecuencia_decomp x xs
      have hel : eleccion_del_anio (registros_filtrados registros filtro) a
          = (a, m.nombre, m.frecuencia) := by
        unfold eleccion_del_anio
        rw [hcase, hsome]
      rw [hel]
      refine ⟨m, l₁, l₂, ?_, rfl, rfl, h₁, h₂⟩
      show (registros_filtrados registros filtro).filter (fun r => r.anio == a)
        = l₁ ++ m :: l₂
      rw [hcase]
      exact heq

/-- Witness for C3: the query succeeds on the example dataset. -/
theorem C3_witness :
    (calcular_nombre_mas_frecuente_por_anio ejemploANA none).isSome = true := by
  obtain ⟨l, hl, -, -, -⟩ := C3_mas_frecuente_por_anio ejemploANA none
  rw [hl]
  rfl

/-- C10: for every input and optional gender filter, every year iterated over
comes from the very records being grouped, so its per-year record list is
non-empty, the per-year `max` is always defined, and the whole function is
total: it never hits the empty-sequence error of `max` (the `none` outcome of
the embedding). -/
theorem C10_max_siempre_definido (registros : List Registro) (filtro : Option String) :
    (∀ a ∈ anios_de (registros_filtrados registros filtro),
      (registros_filtrados registros filtro).filter (fun r => r.anio == a) ≠ [])
    ∧ (calcular_nombre_mas_frecuente_por_anio registros filtro).isSome = true := by
  constructor
  · intro a ha
    obtain ⟨r, hr, hra⟩ := List.mem_map.mp ((mem_anios_de _ a).mp ha)
    have hfil : r ∈ (registros_filtrados registros filtro).filter
        (fun r => r.anio == a) := List.mem_filter.mpr ⟨hr, by simp [hra]⟩
    intro hnil
    rw [hnil] at hfil
    exact absurd hfil (List.not_mem_nil _)
  · rw [nombre_mas_frecuente_eq]
    rfl

/-- Witness for C10: on the example dataset, the year 2002 is iterated over
and its per-year record list is indeed non-empty. -/
theorem C10_witness :
    (registros_filtrados ejemploANA none).filter (fun r => r.anio == 2002) ≠ [] :=
  (C10_max_siempre_definido ejemploANA none).1 2002
    ((mem_anios_de (registros_filtrados ejemploANA none) 2002).mpr (by decide))
